import Mathlib

/-!
Verification development for the TFN_Layers repository.

The repository is a Python/TensorFlow research code base.  The parts that the
statements below concern are shallowly embedded here:

* `src/tfn/tools/callbacks.py` : the `ClassificationMetrics` metric formulas
  (recall, precision, f1_score), and the `WriteCartesians` callback
  (`_unwrap_data_lazily`, `write_cartesians`, `on_epoch_end`, `on_train_end`).
  Numeric arrays are modelled as (nested) lists of rationals; file-system side
  effects are modelled by returning the list of file paths that the code
  writes; Python exceptions are modelled with `Except`.
* `src/tfn/layers/utility_layers.py` : the `Preprocessing` and `UnitVectors`
  layers.  Tensors are modelled as nested lists of reals; a rank-4-or-rank-3
  dynamic result (the Python code returns tensors of different ranks depending
  on the `sum_points` flag) is modelled with a sum type.
* the experiment scripts under `src/runs` : modelled as abstract syntax values
  so that their declarative shape can be stated and checked.
-/

/-! ## Numpy-style scalar helpers (rational model of float arrays) -/

/-- `np.clip(x, 0, 1)`: clamp a scalar into the interval from 0 to 1. -/
def npClip01 (x : ℚ) : ℚ := min (max x 0) 1

/-- `np.round`: round half to even (banker's rounding), as numpy does. -/
def npRound (x : ℚ) : ℤ :=
  let f := ⌊x⌋
  let r := x - f
  if r < 1 / 2 then f
  else if r > 1 / 2 then f + 1
  else if f % 2 = 0 then f else f + 1

/-- The literal `1e-7` appearing in `ClassificationMetrics`. -/
def eps7 : ℚ := 1 / 10000000

/-! ## ClassificationMetrics (src/tfn/tools/callbacks.py, lines 173-186)

`y_true` and `y_pred` are numpy arrays; elementwise operations over a
multidimensional array only depend on its flattened contents, so arrays are
modelled as flat lists of rationals. -/

namespace ClassificationMetrics

/-- `np.sum(np.round(np.clip(y_true * y_pred, 0, 1)))` from the source. -/
def true_positives (y_true y_pred : List ℚ) : ℚ :=
  ((List.zipWith (fun a b => a * b) y_true y_pred).map
    (fun x => ((npRound (npClip01 x) : ℤ) : ℚ))).sum

/-- `np.sum(np.round(np.clip(y_true, 0, 1)))` from the source. -/
def possible_positives (y_true : List ℚ) : ℚ :=
  (y_true.map (fun x => ((npRound (npClip01 x) : ℤ) : ℚ))).sum

/-- `np.sum(np.round(np.clip(y_pred, 0, 1)))` from the source. -/
def predicted_positives (y_pred : List ℚ) : ℚ :=
  (y_pred.map (fun x => ((npRound (npClip01 x) : ℤ) : ℚ))).sum

/-- `ClassificationMetrics.recall`. -/
def «recall» (y_true y_pred : List ℚ) : ℚ :=
  true_positives y_true y_pred / (possible_positives y_true + eps7)

/-- `ClassificationMetrics.precision`. -/
def precision (y_true y_pred : List ℚ) : ℚ :=
  true_positives y_true y_pred / (predicted_positives y_pred + eps7)

/-- `ClassificationMetrics.f1_score`, computed from the recall method and `precision`
exactly as in the source. -/
def f1_score (y_true y_pred : List ℚ) : ℚ :=
  2 * ((precision y_true y_pred * «recall» y_true y_pred) /
    (precision y_true y_pred + «recall» y_true y_pred + eps7))

end ClassificationMetrics

/-! ## WriteCartesians (src/tfn/tools/callbacks.py, lines 28-143)

A per-structure geometry (an `(points, 3)` array) is a `Geom`.  The data lists
handed to the callback have the Python shape `[[z, r, p], [true]]`: a pair of
an input triple (atomic numbers, reactant geometries, product geometries) and
the singleton list of true transition-state geometries.

`model.predict` and the auxiliary two-output model built by `get_vectors` are
the neural network itself; they are passed in as an explicit function
`predict` (the values produced by `get_vectors` only influence file contents,
never which files are written, so they are not modelled).  The side effects of
the callback are modelled by its return value: the list of file paths written,
and the list of named scalar values logged or printed.  Python exceptions are
modelled with `Except`. -/

/-- A single structure's cartesian geometry, a `(points, 3)` array. -/
abbrev Geom := List (List ℚ)

/-- Validation or test data of Python shape `[[z, r, p], [true]]`. -/
abbrev StructData :=
  (List (List ℚ) × List Geom × List Geom) × List Geom

/-- Python `zip` over five lists: truncates at the shortest list. -/
def zip5 {α β γ δ ε : Type} :
    List α → List β → List γ → List δ → List ε → List (α × β × γ × δ × ε)
  | a :: as, b :: bs, c :: cs, d :: ds, e :: es =>
      (a, b, c, d, e) :: zip5 as bs cs ds es
  | _, _, _, _, _ => []

structure WriteCartesians where
  path : String
  validation : Option StructData
  test : Option StructData
  max_structures : ℕ
  write_rate : ℕ

namespace WriteCartesians

/-- `WriteCartesians._unwrap_data_lazily`: predicts transition states for the
whole batch, then yields `enumerate(zip(...))` over the five lists, each first
truncated to `max_structures` entries. -/
def unwrap_data_lazily (predict : (List (List ℚ) × List Geom × List Geom) → List Geom)
    (max_structures : ℕ) (data : StructData) :
    List (ℕ × List ℚ × Geom × Geom × Geom × Geom) :=
  let predicted_transition_states := predict data.1
  let atomic_nums := data.1.1
  let reactants := data.1.2.1
  let products := data.1.2.2
  let true_transition_states := data.2
  (zip5 (atomic_nums.take max_structures)
        (reactants.take max_structures)
        (products.take max_structures)
        (true_transition_states.take max_structures)
        (predicted_transition_states.take max_structures)).enum

/-- The six files `write_cartesians` writes for one structure of index `i`:
one vectors text file and five .xyz files, under six subdirectories of the
base path. -/
def filesForStructure (path : String) (i : ℕ) : List String :=
  [path ++ "/vectors/" ++ toString i ++ "_vectors.txt",
   path ++ "/true/" ++ toString i ++ "_true.xyz",
   path ++ "/predicted/" ++ toString i ++ "_pred.xyz",
   path ++ "/midpoints/" ++ toString i ++ "_midpoint.xyz",
   path ++ "/reactants/" ++ toString i ++ "_reactant.xyz",
   path ++ "/products/" ++ toString i ++ "_product.xyz"]

/-- `WriteCartesians.write_cartesians`: for every structure yielded by
`_unwrap_data_lazily`, write the vectors file and the five .xyz files.  The
returned list is the file paths written, in order. -/
def write_cartesians (predict : (List (List ℚ) × List Geom × List Geom) → List Geom)
    (max_structures : ℕ) (data : StructData) (path : String) : List String :=
  (unwrap_data_lazily predict max_structures data).flatMap
    (fun e => filesForStructure path e.1)

/-- `WriteCartesians.mae`: `np.mean(np.abs(x - y))` over arrays of equal
shape, modelled on the flattened contents. -/
def mae (x y : List ℚ) : ℚ :=
  let l := List.zipWith (fun a b => |a - b|) x y
  l.sum / l.length

/-- Flatten a rank-3 array (a list of geometries) to its contents. -/
def flat3 (t : List Geom) : List ℚ := (t.map (fun g => g.flatten)).flatten

/-- `(r + p) / 2` over the full reactant and product arrays. -/
def midpointArray (r p : List Geom) : List Geom :=
  List.zipWith (fun gr gp =>
    List.zipWith (fun vr vp =>
      List.zipWith (fun a b => (a + b) / 2) vr vp) gr gp) r p

/-- The mean absolute error between `(r + p) / 2` and `ts`. -/
def midpointLoss (r p ts : List Geom) : ℚ :=
  mae (flat3 (midpointArray r p)) (flat3 ts)

/-- `WriteCartesians.on_epoch_end`.  Returns the written file paths and the
logged scalars; `epoch % self.write_rate` with a zero write rate raises a
`ZeroDivisionError` in Python, modelled as an `Except.error`. -/
def on_epoch_end (cb : WriteCartesians)
    (predict : (List (List ℚ) × List Geom × List Geom) → List Geom)
    (epoch : ℕ) : Except String (List String × List (String × ℚ)) :=
  match cb.validation with
  | none => .ok ([], [])
  | some data =>
    if cb.write_rate = 0 then .error "ZeroDivisionError"
    else if epoch % cb.write_rate = 0 then
      let r := data.1.2.1
      let p := data.1.2.2
      let ts := data.2
      .ok (write_cartesians predict cb.max_structures data
             (cb.path ++ "/epoch_" ++ toString epoch),
           [("val_midpoint_loss", midpointLoss r p ts)])
    else .ok ([], [])

/-- `WriteCartesians.on_train_end`.  When `self.test` is present the code
unpacks `self.validation` (not `self.test`); unpacking `None` raises a
`TypeError` in Python, modelled as an `Except.error`.  The returned pair is
(file paths written, scalars printed). -/
def on_train_end (cb : WriteCartesians)
    (predict : (List (List ℚ) × List Geom × List Geom) → List Geom) :
    Except String (List String × List (String × ℚ)) :=
  match cb.test with
  | none => .ok ([], [])
  | some testData =>
    match cb.validation with
    | none => .error "TypeError: cannot unpack non-iterable NoneType object"
    | some valData =>
      let r := valData.1.2.1
      let p := valData.1.2.2
      let ts := valData.2
      .ok (write_cartesians predict cb.max_structures testData (cb.path ++ "/test"),
           [("midpoint test loss", midpointLoss r p ts)])

end WriteCartesians

/-! ## Utility layers (src/tfn/layers/utility_layers.py)

Float tensors are modelled as nested lists of reals.  `R3` is a rank-3 tensor
(batch, points, 3) of cartesian positions; `R4` a rank-4 tensor.  Because the
Python code returns tensors whose rank depends on the `sum_points` flag, such
dynamic results are modelled as a sum `R4 oplus R3`.

The layers `OneHot`, `CosineBasis`, `ShiftedCosineBasis`, `CosineCutoff`,
`GaussianBasis` and `DistanceMatrix` come from the external `atomic_images`
package, which is a dependency, not part of this repository; they are modelled
below with representative radial formulas.  Only their wiring inside
`Preprocessing` and the number of basis centers (the length of the feature
axis they produce) are load-bearing for the statements proved about this
repository. -/

abbrev R1 := List ℝ
abbrev R2 := List R1
abbrev R3 := List R2
abbrev R4 := List R3

/-- Elementwise subtraction of two vectors. -/
def listSub (x y : R1) : R1 := List.zipWith (fun a b => a - b) x y

/-- Sum of squares of a vector. -/
def sumSq (v : R1) : ℝ := (v.map (fun x => x ^ 2)).sum

/-- The epsilon constant guarding the norm (the Python code uses a small
positive float constant). -/
noncomputable def normEps : ℝ := 1 / 100000000

/-- Modelled from the spec: `tfn.utils.norm_with_epsilon` is imported from
`tfn/utils.py`, which is not among the provided source files.  The spec
describes it as an epsilon-guarded Euclidean norm along an axis, guaranteeing
a nonzero denominator for unit-vector computation; it is modelled as the
square root of the sum of squares bounded below by a small positive epsilon.
-/
noncomputable def norm_with_epsilon (v : R1) : ℝ :=
  Real.sqrt (max (sumSq v) normEps)

/-- `UnitVectors.call` (src/tfn/layers/utility_layers.py, lines 98-106).
With `sum_points=False` the broadcast difference
`expand_dims(r, -2) - expand_dims(r, -3)` has entries `r_i - r_j`, and the
whole tensor is divided by its guarded norm along the last axis; with
`sum_points=True` the input itself is divided by its guarded norm along the
last axis.  The rank of the result depends on the flag, hence the sum type. -/
noncomputable def UnitVectors.call (sum_points : Bool) (inputs : R3) : R4 ⊕ R3 :=
  if sum_points then
    Sum.inr (inputs.map (fun rb => rb.map (fun v =>
      v.map (fun x => x / norm_with_epsilon v))))
  else
    Sum.inl (inputs.map (fun rb => rb.map (fun ri => rb.map (fun rj =>
      (listSub ri rj).map (fun x => x / norm_with_epsilon (listSub ri rj))))))

/-- The basis configuration dictionary (width, spacing, min_value, max_value).
The values in the experiment configs are decimal literals, held as rationals.
-/
structure BasisConfig where
  width : ℚ
  spacing : ℚ
  min_value : ℚ
  max_value : ℚ

/-- The default basis configuration substituted by `Preprocessing.__init__`
when `basis_config is None`: width 0.2, spacing 0.2, min_value -1.0,
max_value 15.0. -/
def defaultBasisConfig : BasisConfig :=
  { width := 0.2, spacing := 0.2, min_value := -1.0, max_value := 15.0 }

/-- Number of grid centers of a basis layer (the `_n_centers` attribute of the
`atomic_images` basis layers): the grid from `min_value` to `max_value` in
steps of `spacing`. -/
def BasisConfig.nCenters (c : BasisConfig) : ℕ :=
  (⌈(c.max_value - c.min_value) / c.spacing⌉).toNat

/-- The k-th grid center. -/
def BasisConfig.center (c : BasisConfig) (k : ℕ) : ℚ :=
  c.min_value + k * c.spacing

/-- The basis layer object selected by `Preprocessing.__init__`: one of
`CosineBasis`, `ShiftedCosineBasis`, `GaussianBasis` (external
`atomic_images` layers), each holding its configuration. -/
inductive BasisFunction where
  | cosineBasis (c : BasisConfig)
  | shiftedCosineBasis (c : BasisConfig)
  | gaussianBasis (c : BasisConfig)

/-- The configuration held by a basis layer. -/
def BasisFunction.config : BasisFunction → BasisConfig
  | .cosineBasis c => c
  | .shiftedCosineBasis c => c
  | .gaussianBasis c => c

/-- Scalar radial profile of a basis layer at grid center `k` (external
`atomic_images` code, modelled with representative formulas; the statements
below depend only on the grid length, never on these scalar values). -/
noncomputable def BasisFunction.scalar : BasisFunction → ℝ → ℕ → ℝ
  | .gaussianBasis c, d, k =>
      Real.exp (-((d - (c.center k : ℚ)) ^ 2) / (2 * ((c.width : ℝ)) ^ 2))
  | .cosineBasis c, d, k =>
      Real.cos ((d - (c.center k : ℚ)) / (c.width : ℝ))
  | .shiftedCosineBasis c, d, k =>
      (Real.cos ((d - (c.center k : ℚ)) / (c.width : ℝ)) + 1) / 2

/-- Applying a basis layer to one distance: a feature vector with one entry
per grid center. -/
noncomputable def BasisFunction.apply (bf : BasisFunction) (d : ℝ) : R1 :=
  (List.range bf.config.nCenters).map (fun k => bf.scalar d k)

/-- `DistanceMatrix` (external `atomic_images` layer): pairwise Euclidean
distances. -/
noncomputable def DistanceMatrix.call (r : R3) : R3 :=
  r.map (fun rb => rb.map (fun ri => rb.map (fun rj =>
    Real.sqrt (sumSq (listSub ri rj)))))

/-- Scalar cosine cutoff weight applied to one basis value at distance `d`
(external `atomic_images` layer `CosineCutoff`): smoothly scales the value
down to zero at the cutoff radius and beyond. -/
noncomputable def cutoffScalar (cutoff : ℚ) (d x : ℝ) : ℝ :=
  if d ≤ (cutoff : ℝ) then
    x * ((Real.cos (Real.pi * d / (cutoff : ℝ)) + 1) / 2)
  else 0

/-- `CosineCutoff.call` on the pair (distance matrix, basis image). -/
noncomputable def CosineCutoff.call (cutoff : ℚ) (dist : R3) (image : R4) : R4 :=
  List.zipWith (fun d2 i2 =>
    List.zipWith (fun d1 i1 =>
      List.zipWith (fun d row => row.map (cutoffScalar cutoff d)) d1 i1) d2 i2)
    dist image

/-- `OneHot` (external `atomic_images` layer): one-hot encoding of the point
types with the given depth. -/
def OneHot.call (depth : ℕ) (z : List (List ℕ)) : R3 :=
  z.map (fun zb => zb.map (fun zi =>
    (List.range depth).map (fun k => if zi = k then (1 : ℝ) else 0)))

/-- The `Preprocessing` layer after `__init__` has run: its stored
attributes. -/
structure Preprocessing where
  max_z : ℕ
  sum_points : Bool
  basis_config : BasisConfig
  basis_type : String
  basis_function : BasisFunction
  cutoff : ℚ

/-- `Preprocessing.__init__` (src/tfn/layers/utility_layers.py, lines 35-58):
pops `sum_points` (default False), substitutes the default basis
configuration when `basis_config is None`, selects the basis layer by
`basis_type` ("cosine" and "shifted_cosine" by equality, anything else
Gaussian), and builds the cutoff layer with the default cutoff 15.0. -/
def Preprocessing.init (max_z : ℕ) (basis_config : Option BasisConfig)
    (basis_type : String) (sum_points : Bool) : Preprocessing :=
  let cfg := basis_config.getD defaultBasisConfig
  let bf :=
    if basis_type = "cosine" then BasisFunction.cosineBasis cfg
    else if basis_type = "shifted_cosine" then BasisFunction.shiftedCosineBasis cfg
    else BasisFunction.gaussianBasis cfg
  { max_z := max_z, sum_points := sum_points, basis_config := cfg,
    basis_type := basis_type, basis_function := bf, cutoff := 15.0 }

/-- Sum a list of equal-length rows elementwise (`tf.reduce_sum` over the
row axis of one matrix). -/
def sumRows : R2 → R1
  | [] => []
  | x :: xs => xs.foldl (List.zipWith (fun a b => a + b)) x

/-- `tf.reduce_sum(rbf, axis=-2)` on a rank-4 tensor: sums out the
second-to-last axis. -/
def reduceSumAxis2 (t : R4) : R3 :=
  t.map (fun tb => tb.map sumRows)

/-- The cutoff-weighted basis image
`self.cutoff([dist_matrix, self.basis_function(dist_matrix)])` of
`Preprocessing.call`. -/
noncomputable def Preprocessing.rbf (p : Preprocessing) (r : R3) : R4 :=
  let dist := DistanceMatrix.call r
  CosineCutoff.call p.cutoff dist
    (dist.map (fun d2 => d2.map (fun d1 => d1.map p.basis_function.apply)))

/-- `Preprocessing.call` (src/tfn/layers/utility_layers.py, lines 60-69):
computes the distance matrix, the cutoff-weighted basis image, and the unit
vectors, sums the image over its second-to-last axis when `sum_points` is
set, and returns the three tensors in the order one-hot, image, vectors. -/
noncomputable def Preprocessing.call (p : Preprocessing) (r : R3)
    (z : List (List ℕ)) : R3 × (R4 ⊕ R3) × (R4 ⊕ R3) :=
  let rbf := p.rbf r
  let vectors := UnitVectors.call p.sum_points r
  let rbf2 : R4 ⊕ R3 :=
    if p.sum_points then Sum.inr (reduceSumAxis2 rbf) else Sum.inl rbf
  (OneHot.call p.max_z z, rbf2, vectors)

/-- `Preprocessing.compute_output_shape`
(src/tfn/layers/utility_layers.py, lines 75-83): reports the three output
shapes from the (batch, points, 3) input shape, the second one always of
rank 4. -/
def Preprocessing.compute_output_shape (p : Preprocessing)
    (batch points : ℕ) : List (List ℕ) :=
  [[batch, points, p.max_z],
   [batch, points, points, p.basis_function.config.nCenters],
   [batch, points, points, 3]]

/-- Rank of a dynamic second or third output of `Preprocessing.call`. -/
def imageRank : R4 ⊕ R3 → ℕ
  | .inl _ => 4
  | .inr _ => 3

/-- `rect1 n t`: `t` is a vector of length `n`. -/
def rect1 (n : ℕ) (t : R1) : Bool := t.length == n

/-- `rect2 m n t`: `t` is an `m` by `n` matrix. -/
def rect2 (m n : ℕ) (t : R2) : Bool := t.length == m && t.all (rect1 n)

/-- `rect3 b m n t`: `t` is a rank-3 tensor of shape `(b, m, n)`. -/
def rect3 (b m n : ℕ) (t : R3) : Bool := t.length == b && t.all (rect2 m n)

/-- `rect4 a b m n t`: `t` is a rank-4 tensor of shape `(a, b, m, n)`. -/
def rect4 (a b m n : ℕ) (t : R4) : Bool := t.length == a && t.all (rect3 b m n)

/-! ## Experiment scripts under src/runs

The five Python experiment scripts are declarative; they are embedded here as
abstract syntax values, faithful to the source statement by statement, so
that the shape of each script can be stated and decided.  An f-string value
of the form produced by interpolating the expression built from the script
path (its directory, optionally followed by a constant suffix) is its own
constructor, since it is the only non-literal expression occurring inside the
configuration dictionaries. -/

/-- The job constructors used by the scripts. -/
inductive JobCtor where
  | classification
  | singleModel
  | structurePrediction
  | pipeline
  | crossValidate
  | regression
deriving DecidableEq

/-- Python expressions occurring in the scripts: string, number and boolean
literals, list, tuple and dictionary displays, the f-string interpolating the
script directory, and job-constructor calls (with positional or keyword
arguments). -/
inductive PExpr where
  | str (v : String)
  | num (v : ℚ)
  | boolean (v : Bool)
  | fstringPathParent (suffix : String)
  | listD (l : List PExpr)
  | tupleD (l : List PExpr)
  | dictD (l : List (String × PExpr))
  | jobCall (ctor : JobCtor) (args : List (Option String × PExpr))

/-- Top-level Python statements occurring in the scripts. -/
inductive Stmt where
  | importFrom (module : String) (names : List String)
  | assign (lhs : String) (rhs : PExpr)
  | methodCall (obj : String) (method : String)

/-- A script is its list of top-level statements. -/
abbrev Script := List Stmt

mutual

/-- Whether an expression is a pure literal (string, number, boolean, or a
list, tuple or dictionary display of pure literals). -/
def isLiteral : PExpr → Bool
  | .str _ => true
  | .num _ => true
  | .boolean _ => true
  | .fstringPathParent _ => false
  | .listD l => isLiteralList l
  | .tupleD l => isLiteralList l
  | .dictD l => isLiteralDict l
  | .jobCall _ _ => false

def isLiteralList : List PExpr → Bool
  | [] => true
  | e :: es => isLiteral e && isLiteralList es

def isLiteralDict : List (String × PExpr) → Bool
  | [] => true
  | (_, e) :: es => isLiteral e && isLiteralDict es

end

mutual

/-- Whether an expression is declarative configuration data: a literal, the
script-directory f-string, a list, tuple or dictionary of declarative data,
or a job-constructor call all of whose arguments are declarative. -/
def declarative : PExpr → Bool
  | .str _ => true
  | .num _ => true
  | .boolean _ => true
  | .fstringPathParent _ => true
  | .listD l => declarativeList l
  | .tupleD l => declarativeList l
  | .dictD l => declarativeDict l
  | .jobCall _ args => declarativeArgs args

def declarativeList : List PExpr → Bool
  | [] => true
  | e :: es => declarative e && declarativeList es

def declarativeDict : List (String × PExpr) → Bool
  | [] => true
  | (_, e) :: es => declarative e && declarativeDict es

def declarativeArgs : List (Option String × PExpr) → Bool
  | [] => true
  | (_, e) :: es => declarative e && declarativeArgs es

end

/-- Whether a statement is an import. -/
def Stmt.isImport : Stmt → Bool
  | .importFrom _ _ => true
  | _ => false

/-- The claim as frozen: after its imports, a script consists of exactly one
assignment binding a job-constructor call every argument of which is a fully
literal configuration dictionary, followed by exactly one run() call on the
assigned job, and nothing else. -/
def scriptIsLiteralJobAndRun (s : Script) : Bool :=
  match s.dropWhile Stmt.isImport with
  | [Stmt.assign v (PExpr.jobCall _ args), Stmt.methodCall v2 "run"] =>
      v == v2 &&
      args.all (fun a =>
        match a.2 with
        | PExpr.dictD d => isLiteralDict d
        | _ => false)
  | _ => false

/-- The amended shape: after its imports, a script consists of exactly one
assignment binding a job-constructor call every argument of which is
declarative configuration data, followed by exactly one run() call on the
assigned job, and nothing else. -/
def scriptIsDeclarativeJobAndRun (s : Script) : Bool :=
  match s.dropWhile Stmt.isImport with
  | [Stmt.assign v (PExpr.jobCall _ args), Stmt.methodCall v2 "run"] =>
      v == v2 && declarativeArgs args
  | _ => false

/-- src/runs/basic_classifier/0-defaults/exp_classifier_0.py. -/
def expClassifier0 : Script :=
  [.importFrom "tfn.tools.jobs" ["Classification"],
   .assign "job" (.jobCall .classification
     [(some "exp_config", .dictD
       [("name", .str "BASIC CLASSIFIER ON TS DATASET EXPERIMENT 0"),
        ("notes", .str "Using all defaults"),
        ("run_config", .dictD [("loss", .str "binary_crossentropy")]),
        ("loader_config", .dictD
          [("loader_type", .str "ts_loader"),
           ("load_kwargs", .dictD
             [("output_type", .str "classifier"),
              ("blacklist", .listD
                [.str "reactant", .str "reactant_complex",
                 .str "product_complex"])])]),
        ("builder_config", .dictD
          [("builder_type", .str "classifier_builder")])])]),
   .methodCall "job" "run"]

/-- src/runs/final/pre_trained/tsnet-energy/experiment.py. -/
def expTsnetEnergy : Script :=
  [.importFrom "pathlib" ["Path"],
   .importFrom "tfn.tools.jobs" ["Pipeline", "CrossValidate", "Regression"],
   .assign "job" (.jobCall .pipeline
     [(some "exp_config", .dictD
       [("name", .fstringPathParent ""), ("seed", .num 1)]),
      (some "jobs", .listD
        [.jobCall .regression
          [(some "exp_config", .dictD
            [("name", .fstringPathParent " QM9"),
             ("seed", .num 1),
             ("run_config", .dictD
               [("epochs", .num 50), ("test", .boolean false)]),
             ("loader_config", .dictD
               [("loader_type", .str "qm9_loader"),
                ("splitting", .str "90:10:0"),
                ("map_points", .boolean false),
                ("load_kwargs", .dictD [("custom_maxz", .num 36)])]),
             ("builder_config", .dictD
               [("builder_type", .str "energy_builder")])])],
         .jobCall .crossValidate
          [(some "exp_config", .dictD
            [("name", .fstringPathParent " TS"),
             ("seed", .num 1),
             ("run_config", .dictD
               [("epochs", .num 1000), ("test", .boolean false),
                ("batch_size", .num 48)]),
             ("loader_config", .dictD
               [("loader_type", .str "ts_loader"),
                ("splitting", .num 5),
                ("map_points", .boolean false),
                ("load_kwargs", .dictD
                  [("remove_noise", .boolean true),
                   ("shuffle", .boolean false)])]),
             ("builder_config", .dictD
               [("builder_type", .str "cartesian_builder"),
                ("radial_factory", .str "multi_dense"),
                ("prediction_type", .str "cartesians"),
                ("output_type", .str "cartesians")]),
             ("lr_config", .dictD
               [("min_delta", .num 0.01), ("patience", .num 30),
                ("cooldown", .num 20)])])]])]),
   .methodCall "job" "run"]

/-- src/runs/pipeline/sn2_to_ts/exp_sn2_ts.py. -/
def expSn2Ts : Script :=
  [.importFrom "tfn.tools.jobs" ["Pipeline"],
   .assign "job" (.jobCall .pipeline
     [(none, .dictD
       [("run_config", .dictD
         [("name", .str "tl0 - QM9 Energy to ISO17 Energy/Force predictor"),
          ("notes", .str "Not freezing layers, defaults for both models")]),
        ("pipeline_config", .dictD
          [("configs", .listD
            [.dictD
              [("builder_config", .dictD
                [("builder_type", .str "force_builder")]),
               ("loader_config", .dictD
                [("loader_type", .str "sn2_loader")])],
             .dictD
              [("builder_config", .dictD
                [("builder_type", .str "ts_builder")]),
               ("loader_config", .dictD
                [("loader_type", .str "ts_loader"),
                 ("splitting", .str "90:10")])]])])])]),
   .methodCall "job" "run"]

/-- src/runs/ts/2-cartesian_predictor/exp_ts_2.py. -/
def expTs2 : Script :=
  [.importFrom "tfn.tools.jobs" ["SingleModel"],
   .assign "job" (.jobCall .singleModel
     [(some "exp_config", .dictD
       [("name", .str "CARTESIAN TS MODEL ON TS DATASET"),
        ("notes", .str "Train on only distance matrix"),
        ("run_config", .dictD
          [("epochs", .num 200), ("loss", .str "mae")]),
        ("builder_config", .dictD
          [("builder_type", .str "ts_builder"),
           ("num_layers", .tupleD [.num 2, .num 2, .num 2]),
           ("output_distance_matrix", .boolean false)]),
        ("loader_config", .dictD
          [("loader_type", .str "ts_loader"),
           ("load_kwargs", .dictD
             [("output_distance_matrix", .boolean false)])])])]),
   .methodCall "job" "run"]

/-- src/runs/cartesian_prediction/qm9/cartesians_prediction_distance_matrix_output/experiment.py. -/
def expQm9Cartesians : Script :=
  [.importFrom "pathlib" ["Path"],
   .importFrom "tfn.tools.jobs" ["StructurePrediction"],
   .assign "job" (.jobCall .structurePrediction
     [(some "exp_config", .dictD
       [("name", .fstringPathParent ""),
        ("notes", .str ""),
        ("loader_config", .dictD
          [("loader_type", .str "qm9_loader"),
           ("load_kwargs", .dictD
             [("modify_structures", .boolean true),
              ("output_distance_matrix", .boolean true)])]),
        ("builder_config", .dictD
          [("builder_type", .str "cartesian_builder"),
           ("prediction_type", .str "cartesians"),
           ("output_type", .str "distance_matrix")])])]),
   .methodCall "job" "run"]

/-- All experiment scripts present under src/runs. -/
def runScripts : List Script :=
  [expClassifier0, expTsnetEnergy, expSn2Ts, expTs2, expQm9Cartesians]

/-! ## Theorems -/

/-! ### Helper lemmas -/

theorem npClip01_nonneg (x : ℚ) : 0 ≤ npClip01 x :=
  le_min (le_max_right x 0) zero_le_one

theorem npRound_nonneg {x : ℚ} (hx : 0 ≤ x) : 0 ≤ npRound x := by
  unfold npRound
  have hf : (0 : ℤ) ≤ ⌊x⌋ := Int.floor_nonneg.mpr hx
  dsimp only
  split
  · exact hf
  · split
    · omega
    · split <;> omega

theorem sum_round_clip_nonneg (l : List ℚ) :
    0 ≤ (l.map (fun x => ((npRound (npClip01 x) : ℤ) : ℚ))).sum := by
  refine List.sum_nonneg ?_
  intro a ha
  rcases List.mem_map.mp ha with ⟨x, _, rfl⟩
  exact_mod_cast Int.cast_nonneg.mpr (npRound_nonneg (npClip01_nonneg x))

theorem eps7_pos : 0 < eps7 := by norm_num [eps7]

/-! ### C4: the metric formulas -/

/-- C4.  For all arrays y_true and y_pred, `ClassificationMetrics.recall`
returns sum(round(clip(y_true * y_pred, 0, 1))) divided by
(sum(round(clip(y_true, 0, 1))) + 1e-7), `ClassificationMetrics.precision`
returns the same numerator divided by (sum(round(clip(y_pred, 0, 1))) +
1e-7), and `ClassificationMetrics.f1_score` returns
2 * (precision * recall) / (precision + recall + 1e-7) computed from those
two functions. -/
theorem classification_metrics_formulas (y_true y_pred : List ℚ) :
    ClassificationMetrics.«recall» y_true y_pred =
      ((List.zipWith (fun a b => a * b) y_true y_pred).map
        (fun x => ((npRound (npClip01 x) : ℤ) : ℚ))).sum /
      ((y_true.map (fun x => ((npRound (npClip01 x) : ℤ) : ℚ))).sum + 1 / 10000000)
    ∧ ClassificationMetrics.precision y_true y_pred =
      ((List.zipWith (fun a b => a * b) y_true y_pred).map
        (fun x => ((npRound (npClip01 x) : ℤ) : ℚ))).sum /
      ((y_pred.map (fun x => ((npRound (npClip01 x) : ℤ) : ℚ))).sum + 1 / 10000000)
    ∧ ClassificationMetrics.f1_score y_true y_pred =
      2 * ((ClassificationMetrics.precision y_true y_pred *
            ClassificationMetrics.«recall» y_true y_pred) /
           (ClassificationMetrics.precision y_true y_pred +
            ClassificationMetrics.«recall» y_true y_pred + 1 / 10000000)) :=
  ⟨rfl, rfl, rfl⟩

/-! ### C5: the metrics are total -/

/-- C5.  For all inputs y_true and y_pred, including all-zero arrays, the
three metric functions are total: each division's denominator is a
non-negative sum of rounded clipped values plus the constant 1e-7 (for
f1_score, the sum of the two non-negative metrics plus 1e-7) and is
therefore strictly positive. -/
theorem classification_metrics_denominators_positive (y_true y_pred : List ℚ) :
    0 ≤ ClassificationMetrics.possible_positives y_true
    ∧ 0 ≤ ClassificationMetrics.predicted_positives y_pred
    ∧ 0 < ClassificationMetrics.possible_positives y_true + eps7
    ∧ 0 < ClassificationMetrics.predicted_positives y_pred + eps7
    ∧ 0 < ClassificationMetrics.precision y_true y_pred +
          ClassificationMetrics.«recall» y_true y_pred + eps7 := by
  have hposs : 0 ≤ ClassificationMetrics.possible_positives y_true :=
    sum_round_clip_nonneg y_true
  have hpred : 0 ≤ ClassificationMetrics.predicted_positives y_pred :=
    sum_round_clip_nonneg y_pred
  have htp : 0 ≤ ClassificationMetrics.true_positives y_true y_pred :=
    sum_round_clip_nonneg _
  have hr : 0 ≤ ClassificationMetrics.«recall» y_true y_pred :=
    div_nonneg htp (le_of_lt (lt_of_lt_of_le eps7_pos (by linarith)))
  have hp : 0 ≤ ClassificationMetrics.precision y_true y_pred :=
    div_nonneg htp (le_of_lt (lt_of_lt_of_le eps7_pos (by linarith)))
  refine ⟨hposs, hpred, by linarith [eps7_pos], by linarith [eps7_pos],
    by linarith [eps7_pos]⟩

theorem zip5_length_le {α β γ δ ε : Type} (as : List α) (bs : List β)
    (cs : List γ) (ds : List δ) (es : List ε) :
    (zip5 as bs cs ds es).length ≤ as.length := by
  induction as generalizing bs cs ds es with
  | nil => simp [zip5]
  | cons a as ih =>
    cases bs with
    | nil => simp [zip5]
    | cons b bs =>
      cases cs with
      | nil => simp [zip5]
      | cons c cs =>
        cases ds with
        | nil => simp [zip5]
        | cons d ds =>
          cases es with
          | nil => simp [zip5]
          | cons e es =>
            simpa [zip5, Nat.succ_le_succ_iff] using ih bs cs ds es

theorem fst_lt_of_mem_enumFrom {α : Type} :
    ∀ (l : List α) (n : ℕ) (p : ℕ × α), p ∈ List.enumFrom n l → p.1 < n + l.length := by
  intro l
  induction l with
  | nil => intro n p h; simp [List.enumFrom] at h
  | cons x xs ih =>
    intro n p h
    simp only [List.enumFrom, List.mem_cons] at h
    rcases h with rfl | h
    · simp
    · have := ih (n + 1) p h
      simp only [List.length_cons]
      omega

theorem fst_lt_of_mem_enum {α : Type} (l : List α) (p : ℕ × α)
    (h : p ∈ l.enum) : p.1 < l.length := by
  have := fst_lt_of_mem_enumFrom l 0 p h
  omega

/-! ### C6: files written by write_cartesians -/

/-- C6.  For every data list of shape `[[z, r, p], [true]]`, at most
`max_structures` structures are exported (every structure index that occurs
is below `max_structures`, and there are at most `max_structures` of them),
and for each exported structure index `i` exactly one vectors text file and
five .xyz files (true, predicted, midpoint, reactant, product) are written,
under the subdirectories vectors/, true/, predicted/, midpoints/, reactants/
and products/ of the given base path. -/
theorem write_cartesians_exports
    (predict : (List (List ℚ) × List Geom × List Geom) → List Geom)
    (max_structures : ℕ) (data : StructData) (path : String) :
    WriteCartesians.write_cartesians predict max_structures data path =
      (WriteCartesians.unwrap_data_lazily predict max_structures data).flatMap
        (fun e =>
          [path ++ "/vectors/" ++ toString e.1 ++ "_vectors.txt",
           path ++ "/true/" ++ toString e.1 ++ "_true.xyz",
           path ++ "/predicted/" ++ toString e.1 ++ "_pred.xyz",
           path ++ "/midpoints/" ++ toString e.1 ++ "_midpoint.xyz",
           path ++ "/reactants/" ++ toString e.1 ++ "_reactant.xyz",
           path ++ "/products/" ++ toString e.1 ++ "_product.xyz"])
    ∧ (WriteCartesians.unwrap_data_lazily predict max_structures data).length ≤
        max_structures
    ∧ ∀ e ∈ WriteCartesians.unwrap_data_lazily predict max_structures data,
        e.1 < max_structures := by
  refine ⟨rfl, ?_, ?_⟩
  · unfold WriteCartesians.unwrap_data_lazily
    calc ((zip5 (data.1.1.take max_structures)
            (data.1.2.1.take max_structures)
            (data.1.2.2.take max_structures)
            (data.2.take max_structures)
            ((predict data.1).take max_structures)).enum).length
        = (zip5 (data.1.1.take max_structures)
            (data.1.2.1.take max_structures)
            (data.1.2.2.take max_structures)
            (data.2.take max_structures)
            ((predict data.1).take max_structures)).length := List.enum_length
      _ ≤ (data.1.1.take max_structures).length := zip5_length_le _ _ _ _ _
      _ ≤ max_structures := by
          simp [List.length_take]
  · intro e he
    unfold WriteCartesians.unwrap_data_lazily at he
    have h1 := fst_lt_of_mem_enum _ _ he
    have h2 := zip5_length_le (data.1.1.take max_structures)
      (data.1.2.1.take max_structures) (data.1.2.2.take max_structures)
      (data.2.take max_structures) ((predict data.1).take max_structures)
    have h3 : (data.1.1.take max_structures).length ≤ max_structures := by
      simp [List.length_take]
    omega

/-! ### C7: on_epoch_end writes only at the write rate -/

/-- C7.  `on_epoch_end` never writes any files when the validation attribute
is None; when validation data is provided (and the write rate is nonzero, so
that the Python modulus is defined) it writes the validation structures under
path/epoch_{epoch} and logs the scalar val_midpoint_loss, the mean absolute
error between (r + p) / 2 and the true transition state, exactly on the
epochs where epoch modulo write_rate is zero, and writes and logs nothing on
every other epoch. -/
theorem on_epoch_end_write_schedule (path : String) (v : StructData)
    (t : Option StructData) (m w : ℕ)
    (predict : (List (List ℚ) × List Geom × List Geom) → List Geom)
    (epoch : ℕ) (hw : w ≠ 0) :
    WriteCartesians.on_epoch_end ⟨path, none, t, m, w⟩ predict epoch =
      .ok ([], [])
    ∧ (epoch % w = 0 →
        WriteCartesians.on_epoch_end ⟨path, some v, t, m, w⟩ predict epoch =
          .ok (WriteCartesians.write_cartesians predict m v
                 (path ++ "/epoch_" ++ toString epoch),
               [("val_midpoint_loss",
                 WriteCartesians.midpointLoss v.1.2.1 v.1.2.2 v.2)]))
    ∧ (epoch % w ≠ 0 →
        WriteCartesians.on_epoch_end ⟨path, some v, t, m, w⟩ predict epoch =
          .ok ([], [])) := by
  refine ⟨rfl, ?_, ?_⟩
  · intro h
    simp [WriteCartesians.on_epoch_end, hw, h]
  · intro h
    simp [WriteCartesians.on_epoch_end, hw, h]

/-- A concrete one-structure validation data value. -/
def exampleVal : StructData :=
  (([[1, 1]], [[[0, 0, 0], [1, 0, 0]]], [[[0, 1, 0], [1, 1, 0]]]),
   [[[0, 0, 1], [1, 0, 1]]])

/-- A concrete stand-in for `model.predict`: predicts the product geometries.
-/
def examplePredict : (List (List ℚ) × List Geom × List Geom) → List Geom :=
  fun d => d.2.2

/-- Witness for C7 at a concrete callback, epoch 200 and write rate 100. -/
theorem on_epoch_end_write_schedule_witness :
    (100 ≠ 0 ∧ 200 % 100 = 0)
    ∧ WriteCartesians.on_epoch_end ⟨"out", some exampleVal, none, 5, 100⟩
        examplePredict 200 =
      .ok (WriteCartesians.write_cartesians examplePredict 5 exampleVal
             ("out" ++ "/epoch_" ++ toString 200),
           [("val_midpoint_loss",
             WriteCartesians.midpointLoss exampleVal.1.2.1 exampleVal.1.2.2
               exampleVal.2)]) :=
  ⟨⟨by decide, by decide⟩,
   (on_epoch_end_write_schedule "out" exampleVal none 5 100 examplePredict 200
     (by decide)).2.1 (by decide)⟩

/-! ### C9: on_train_end unpacks validation, not test -/

/-- C9.  Whenever the test attribute is not None, `on_train_end` unpacks the
validation attribute: with test data provided but validation None it fails
with a TypeError (unpacking None) before any test file is written, and with
both provided it writes the test structures under path/test but prints a
"midpoint test loss" computed from the validation data, not the test data. -/
theorem on_train_end_uses_validation (path : String) (v t : StructData)
    (m w : ℕ)
    (predict : (List (List ℚ) × List Geom × List Geom) → List Geom) :
    WriteCartesians.on_train_end ⟨path, none, some t, m, w⟩ predict =
      .error "TypeError: cannot unpack non-iterable NoneType object"
    ∧ WriteCartesians.on_train_end ⟨path, some v, some t, m, w⟩ predict =
      .ok (WriteCartesians.write_cartesians predict m t (path ++ "/test"),
           [("midpoint test loss",
             WriteCartesians.midpointLoss v.1.2.1 v.1.2.2 v.2)]) :=
  ⟨rfl, rfl⟩

/-! ### C2: unit vectors and the guarded norm -/

theorem listSub_self (v : R1) : listSub v v = List.replicate v.length 0 := by
  induction v with
  | nil => rfl
  | cons x xs ih =>
    simp only [listSub, List.zipWith_cons_cons, sub_self, List.length_cons,
      List.replicate_succ] at *
    exact congrArg (List.cons 0) ih

/-- C2.  `UnitVectors.call` with sum_points=False returns the tensor whose
(i, j) entry is (r_i - r_j) divided componentwise by the epsilon-guarded
Euclidean norm of (r_i - r_j); with sum_points=True it returns the input
divided elementwise by its own epsilon-guarded norm along the last axis; the
guarded norm is strictly positive on every vector, so the division is total,
and coincident points (in particular every diagonal entry i = j) yield a zero
vector rather than a division by zero. -/
theorem unit_vectors_guarded (r : R3) :
    UnitVectors.call false r =
      Sum.inl (r.map (fun rb => rb.map (fun ri => rb.map (fun rj =>
        (listSub ri rj).map (fun x => x / norm_with_epsilon (listSub ri rj))))))
    ∧ UnitVectors.call true r =
      Sum.inr (r.map (fun rb => rb.map (fun v =>
        v.map (fun x => x / norm_with_epsilon v))))
    ∧ (∀ v : R1, 0 < norm_with_epsilon v)
    ∧ (∀ ri : R1,
        (listSub ri ri).map (fun x => x / norm_with_epsilon (listSub ri ri)) =
          List.replicate ri.length 0) := by
  refine ⟨rfl, rfl, ?_, ?_⟩
  · intro v
    apply Real.sqrt_pos.mpr
    have h : (0 : ℝ) < normEps := by norm_num [normEps]
    exact lt_of_lt_of_le h (le_max_right _ _)
  · intro ri
    rw [listSub_self]
    rw [List.map_replicate]
    rw [zero_div]

/-! ### C3: basis selection and the default configuration -/

/-- C3.  `Preprocessing.__init__` selects CosineBasis exactly when basis_type
equals "cosine", ShiftedCosineBasis exactly when basis_type equals
"shifted_cosine", and GaussianBasis for every other value of basis_type; and
whenever basis_config is None it is replaced by the default configuration
with width 0.2, spacing 0.2, min_value -1.0 and max_value 15.0 (a given
configuration is kept unchanged). -/
theorem preprocessing_init_selection (max_z : ℕ) (bc : Option BasisConfig)
    (bt : String) (sp : Bool) :
    ((Preprocessing.init max_z bc bt sp).basis_function =
        BasisFunction.cosineBasis (bc.getD defaultBasisConfig) ↔ bt = "cosine")
    ∧ ((Preprocessing.init max_z bc bt sp).basis_function =
        BasisFunction.shiftedCosineBasis (bc.getD defaultBasisConfig) ↔
          bt = "shifted_cosine")
    ∧ ((Preprocessing.init max_z bc bt sp).basis_function =
        BasisFunction.gaussianBasis (bc.getD defaultBasisConfig) ↔
          (¬ bt = "cosine" ∧ ¬ bt = "shifted_cosine"))
    ∧ (Preprocessing.init max_z none bt sp).basis_config = defaultBasisConfig
    ∧ (∀ c, (Preprocessing.init max_z (some c) bt sp).basis_config = c)
    ∧ defaultBasisConfig =
        { width := 0.2, spacing := 0.2, min_value := -1.0, max_value := 15.0 } := by
  by_cases h1 : bt = "cosine" <;> by_cases h2 : bt = "shifted_cosine" <;>
    simp_all [Preprocessing.init] <;> rfl

/-! ### C1: the three outputs of Preprocessing.call -/

/-- C1.  For every input pair (r, z), `Preprocessing.call` returns exactly
three tensors, in the order one-hot encoding of z with depth max_z,
cutoff-weighted basis expansion of the distance matrix of r, unit vectors of
r; when the layer was constructed with sum_points=True the basis-image tensor
is additionally summed over its second-to-last axis before being returned. -/
theorem preprocessing_call_outputs (p : Preprocessing) (r : R3)
    (z : List (List ℕ)) :
    p.call r z =
      (OneHot.call p.max_z z,
       (if p.sum_points then
          Sum.inr (reduceSumAxis2 (CosineCutoff.call p.cutoff
            (DistanceMatrix.call r)
            ((DistanceMatrix.call r).map (fun d2 => d2.map (fun d1 =>
              d1.map p.basis_function.apply)))))
        else
          Sum.inl (CosineCutoff.call p.cutoff (DistanceMatrix.call r)
            ((DistanceMatrix.call r).map (fun d2 => d2.map (fun d1 =>
              d1.map p.basis_function.apply))))),
       UnitVectors.call p.sum_points r) := rfl

/-! ### Shape lemmas for C10 -/

theorem rect2_iff {m n : ℕ} {t : R2} :
    rect2 m n t = true ↔ t.length = m ∧ ∀ x ∈ t, x.length = n := by
  simp [rect2, rect1, List.all_eq_true, beq_iff_eq]

theorem rect3_iff {b m n : ℕ} {t : R3} :
    rect3 b m n t = true ↔ t.length = b ∧ ∀ x ∈ t, rect2 m n x = true := by
  simp [rect3, List.all_eq_true, beq_iff_eq]

theorem rect4_iff {a b m n : ℕ} {t : R4} :
    rect4 a b m n t = true ↔ t.length = a ∧ ∀ x ∈ t, rect3 b m n x = true := by
  simp [rect4, List.all_eq_true, beq_iff_eq]

theorem rect3_distanceMatrix {b p : ℕ} {r : R3} (h : rect3 b p 3 r = true) :
    rect3 b p p (DistanceMatrix.call r) = true := by
  rw [rect3_iff] at h ⊢
  obtain ⟨hlen, hmem⟩ := h
  refine ⟨by simpa [DistanceMatrix.call] using hlen, ?_⟩
  intro x hx
  simp only [DistanceMatrix.call, List.mem_map] at hx
  obtain ⟨rb, hrb, rfl⟩ := hx
  have h2 := rect2_iff.mp (hmem rb hrb)
  rw [rect2_iff]
  refine ⟨by simpa using h2.1, ?_⟩
  intro y hy
  simp only [List.mem_map] at hy
  obtain ⟨ri, _, rfl⟩ := hy
  simpa using h2.1

theorem zipWith_map_self {α β γ : Type} (f : α → β → γ) (g : α → β)
    (l : List α) :
    List.zipWith f l (l.map g) = l.map (fun x => f x (g x)) := by
  induction l with
  | nil => rfl
  | cons x xs ih => simp [ih]

theorem rbf_explicit (p : Preprocessing) (r : R3) :
    p.rbf r = (DistanceMatrix.call r).map (fun d2 => d2.map (fun d1 =>
      d1.map (fun d =>
        (p.basis_function.apply d).map (cutoffScalar p.cutoff d)))) := by
  simp only [Preprocessing.rbf, CosineCutoff.call, zipWith_map_self]

theorem basis_apply_length (bf : BasisFunction) (d : ℝ) :
    (bf.apply d).length = bf.config.nCenters := by
  simp [BasisFunction.apply]

theorem rect4_rbf {b pts : ℕ} (p : Preprocessing) {r : R3}
    (h : rect3 b pts 3 r = true) :
    rect4 b pts pts p.basis_function.config.nCenters (p.rbf r) = true := by
  have hd := rect3_iff.mp (rect3_distanceMatrix h)
  rw [rbf_explicit, rect4_iff]
  refine ⟨by simpa using hd.1, ?_⟩
  intro x hx
  simp only [List.mem_map] at hx
  obtain ⟨d2, hd2, rfl⟩ := hx
  have h2 := rect2_iff.mp (hd.2 d2 hd2)
  rw [rect3_iff]
  refine ⟨by simpa using h2.1, ?_⟩
  intro y hy
  simp only [List.mem_map] at hy
  obtain ⟨d1, hd1, rfl⟩ := hy
  rw [rect2_iff]
  refine ⟨by simpa using h2.2 d1 hd1, ?_⟩
  intro v hv
  simp only [List.mem_map] at hv
  obtain ⟨d, _, rfl⟩ := hv
  simp [basis_apply_length]

theorem foldl_zipWith_add_length {n : ℕ} :
    ∀ (xs : R2) (acc : R1), acc.length = n → (∀ row ∈ xs, row.length = n) →
      (xs.foldl (List.zipWith (fun a b => a + b)) acc).length = n := by
  intro xs
  induction xs with
  | nil => intro acc ha _; simpa using ha
  | cons y ys ih =>
    intro acc ha h
    simp only [List.foldl_cons]
    apply ih
    · rw [List.length_zipWith, ha, h y (by simp)]
      exact min_self n
    · intro row hr
      exact h row (by simp [hr])

theorem sumRows_length {n : ℕ} {m : R2} (hne : m ≠ [])
    (h : ∀ row ∈ m, row.length = n) : (sumRows m).length = n := by
  cases m with
  | nil => exact absurd rfl hne
  | cons x xs =>
    simp only [sumRows]
    exact foldl_zipWith_add_length xs x (h x (by simp))
      (fun row hr => h row (by simp [hr]))

theorem rect3_reduceSum {b pts n : ℕ} {t : R4}
    (h : rect4 b pts pts n t = true) :
    rect3 b pts n (reduceSumAxis2 t) = true := by
  rw [rect4_iff] at h
  obtain ⟨hl, hm⟩ := h
  rw [rect3_iff]
  refine ⟨by simpa [reduceSumAxis2] using hl, ?_⟩
  intro x hx
  simp only [reduceSumAxis2, List.mem_map] at hx
  obtain ⟨tb, htb, rfl⟩ := hx
  have h3 := rect3_iff.mp (hm tb htb)
  rw [rect2_iff]
  refine ⟨by simpa using h3.1, ?_⟩
  intro y hy
  simp only [List.mem_map] at hy
  obtain ⟨mtx, hmtx, rfl⟩ := hy
  have h2 := rect2_iff.mp (h3.2 mtx hmtx)
  apply sumRows_length
  · have hpos : 0 < tb.length := List.length_pos.mpr (List.ne_nil_of_mem hmtx)
    have : 0 < mtx.length := by
      rw [h2.1]
      rw [h3.1] at hpos
      exact hpos
    exact List.ne_nil_of_length_pos this
  · exact h2.2

/-! ### C10: compute_output_shape versus the actual image shape -/

/-- C10.  For every Preprocessing layer, `compute_output_shape` reports the
second output's shape as the rank-4 shape (batch, points, points, n_centers);
on every rectangular (batch, points, 3) input, when sum_points is True the
second output actually returned by `call` is a rank-3 tensor of shape (batch,
points, n_centers) because the basis image was summed over its second-to-last
axis, while when sum_points is False it is a rank-4 tensor of the reported
shape: the reported and actual shapes agree only when sum_points is False. -/
theorem preprocessing_shape_mismatch (p : Preprocessing) (r : R3)
    (z : List (List ℕ)) (b pts : ℕ) (hr : rect3 b pts 3 r = true) :
    p.compute_output_shape b pts =
      [[b, pts, p.max_z],
       [b, pts, pts, p.basis_function.config.nCenters],
       [b, pts, pts, 3]]
    ∧ (p.sum_points = true →
        ∃ t, (p.call r z).2.1 = Sum.inr t
          ∧ rect3 b pts p.basis_function.config.nCenters t = true
          ∧ imageRank (p.call r z).2.1 = 3)
    ∧ (p.sum_points = false →
        ∃ t, (p.call r z).2.1 = Sum.inl t
          ∧ rect4 b pts pts p.basis_function.config.nCenters t = true
          ∧ imageRank (p.call r z).2.1 = 4) := by
  refine ⟨rfl, ?_, ?_⟩
  · intro hs
    refine ⟨reduceSumAxis2 (p.rbf r), ?_, rect3_reduceSum (rect4_rbf p hr), ?_⟩
    · simp [Preprocessing.call, hs]
    · simp [Preprocessing.call, hs, imageRank]
  · intro hs
    refine ⟨p.rbf r, ?_, rect4_rbf p hr, ?_⟩
    · simp [Preprocessing.call, hs]
    · simp [Preprocessing.call, hs, imageRank]

/-- A concrete rectangular (1, 2, 3) cartesian input. -/
noncomputable def exampleR : R3 := [[[0, 0, 0], [1, 0, 0]]]

/-- A concrete point-type input. -/
def exampleZ : List (List ℕ) := [[1, 2]]

/-- A concrete Preprocessing layer constructed with sum_points=True. -/
def examplePre : Preprocessing := Preprocessing.init 4 none "gaussian" true

/-- Witness for C10 at the concrete layer and input. -/
theorem preprocessing_shape_mismatch_witness :
    rect3 1 2 3 exampleR = true
    ∧ (examplePre.compute_output_shape 1 2 =
        [[1, 2, examplePre.max_z],
         [1, 2, 2, examplePre.basis_function.config.nCenters],
         [1, 2, 2, 3]]
      ∧ (examplePre.sum_points = true →
          ∃ t, (examplePre.call exampleR exampleZ).2.1 = Sum.inr t
            ∧ rect3 1 2 examplePre.basis_function.config.nCenters t = true
            ∧ imageRank (examplePre.call exampleR exampleZ).2.1 = 3)
      ∧ (examplePre.sum_points = false →
          ∃ t, (examplePre.call exampleR exampleZ).2.1 = Sum.inl t
            ∧ rect4 1 2 2 examplePre.basis_function.config.nCenters t = true
            ∧ imageRank (examplePre.call exampleR exampleZ).2.1 = 4)) :=
  ⟨by decide,
   preprocessing_shape_mismatch examplePre exampleR exampleZ 1 2 (by decide)⟩

/-- Witness for C6: the first structure of the concrete data is exported with
index 0, below max_structures = 5. -/
theorem write_cartesians_exports_witness :
    ((0, [1, 1], [[0, 0, 0], [1, 0, 0]], [[0, 1, 0], [1, 1, 0]],
        [[0, 0, 1], [1, 0, 1]], [[0, 1, 0], [1, 1, 0]]) ∈
      WriteCartesians.unwrap_data_lazily examplePredict 5 exampleVal)
    ∧ (0 : ℕ) < 5 := by
  have hmem : (0, ([1, 1] : List ℚ), ([[0, 0, 0], [1, 0, 0]] : Geom),
      ([[0, 1, 0], [1, 1, 0]] : Geom), ([[0, 0, 1], [1, 0, 1]] : Geom),
      ([[0, 1, 0], [1, 1, 0]] : Geom)) ∈
      WriteCartesians.unwrap_data_lazily examplePredict 5 exampleVal := by
    decide
  exact ⟨hmem,
    (write_cartesians_exports examplePredict 5 exampleVal "out").2.2 _ hmem⟩

/-! ### C8: shape of the experiment scripts -/

/-- Counterexample to C8 as stated: the qm9 cartesian-prediction experiment
script is one of the scripts under src/runs, yet it does not consist of a
job construction from purely literal configuration dictionaries (its
exp_config name value is the f-string interpolating Path(__file__).parent,
which is not a literal). -/
theorem run_scripts_not_all_literal :
    expQm9Cartesians ∈ runScripts
    ∧ scriptIsLiteralJobAndRun expQm9Cartesians = false := by
  constructor
  · unfold runScripts
    exact List.mem_cons_of_mem _ (List.mem_cons_of_mem _
      (List.mem_cons_of_mem _ (List.mem_cons_of_mem _ (List.mem_cons_self _ _))))
  · rfl

/-- C8 (amended).  Every experiment script under src/runs consists of
imports followed by exactly one top-level assignment binding a
job-constructor call (Classification, SingleModel, StructurePrediction,
Pipeline, CrossValidate, Regression) all of whose arguments are declarative
configuration data (string, number and boolean literals, lists, tuples and
dictionaries of such, f-strings interpolating the script's own directory,
and nested job-constructor calls of the same shape), followed by exactly one
top-level action, calling run() once on the assigned outermost job; no
script defines any other computation of its own. -/
theorem run_scripts_declarative :
    runScripts.all scriptIsDeclarativeJobAndRun = true := rfl
